import Mathlib

/-!
Verification of the Real-Time Schedule Reconciliation & Visualization Engine
of the TrainVision dashboard (rail-frontend/src/App.tsx), against its
natural-language specification.

Shallow embedding conventions:
* ISO-8601 timestamp strings are modelled by their epoch-millisecond values
  (new Date(s).getTime()), as Int.
* JavaScript numbers used for delays, coordinates and percentages are
  modelled as rationals; the Math.random() calls of the source are made
  explicit as rational parameters in [0,1).
* Network effects (fetch results) are made explicit as parameters: each
  embedded handler takes the outcome of its HTTP calls as an argument.
* Display-only fields of the source (colors, tooltip titles, toFixed
  formatting) are omitted; all fields the handlers branch on are kept.
-/

/-- Train record (App.tsx interface Train); only the fields read by the
embedded logic are kept: identity and the scheduled arrival/departure
timestamps, which are optional in the source. -/
structure Train where
  id : String
  scheduled_arrival : Option Int
  scheduled_departure : Option Int
deriving DecidableEq, Repr

/-- Schedule entry: one stop of one train
(App.tsx interface ScheduleEntry). -/
structure ScheduleEntry where
  train_id : String
  station_id : String
  assigned_platform : Int
  actual_arrival : Int
  actual_departure : Int
  reason : Option String
deriving DecidableEq, Repr

/-- The reconciliation store state: the three React state slots holding the
current schedule snapshot, the baseline snapshot and the previous snapshot
(App.tsx useState hooks schedule / baselineSchedule / previousSchedule;
the empty list models the initial empty snapshot). -/
structure ReconState where
  schedule : List ScheduleEntry
  baselineSchedule : List ScheduleEntry
  previousSchedule : List ScheduleEntry
deriving DecidableEq, Repr

/-- One successful run of fetchSchedule (App.tsx lines 732-770) that
received newSched from GET /schedule. The auxiliary GET /baseline issued
when the captured baselineSchedule is empty is modelled by baselineFetch
(none when that request fails or returns not-ok, some b on success).
All reads of React state use the values captured at entry (the closure
values), which is why the baseline-fetch guard tests the old baseline
even after the promotion branch ran. Deep equality via JSON.stringify is
modelled by structural equality of snapshots. -/
def fetchScheduleStep (st : ReconState) (newSched : List ScheduleEntry)
    (baselineFetch : Option (List ScheduleEntry)) : ReconState :=
  let baseline1 :=
    if st.schedule ≠ [] ∧ st.baselineSchedule = [] then st.schedule
    else st.baselineSchedule
  let previous1 :=
    if st.schedule ≠ [] ∧ st.baselineSchedule ≠ [] ∧ st.schedule ≠ newSched
    then st.schedule else st.previousSchedule
  let baseline2 :=
    if st.baselineSchedule = [] then baselineFetch.getD baseline1 else baseline1
  ⟨newSched, baseline2, previous1⟩

/-- One successful fetchSchedule run with the captured closure state and
the live store distinguished: React state reads inside the function body
use the values captured when the invoking closure was created (cap),
while the setState writes land on the live store (live). When cap = live
this coincides with fetchScheduleStep (the initial mount fetch and
user-triggered refreshes, which run a fresh render's closure). -/
def fetchScheduleRun (cap live : ReconState) (newSched : List ScheduleEntry)
    (baselineFetch : Option (List ScheduleEntry)) : ReconState :=
  let baseline1 :=
    if cap.schedule ≠ [] ∧ cap.baselineSchedule = [] then cap.schedule
    else live.baselineSchedule
  let previous1 :=
    if cap.schedule ≠ [] ∧ cap.baselineSchedule ≠ [] ∧ cap.schedule ≠ newSched
    then cap.schedule else live.previousSchedule
  let baseline2 :=
    if cap.baselineSchedule = [] then baselineFetch.getD baseline1 else baseline1
  ⟨newSched, baseline2, previous1⟩

/-- A routine schedule-poll tick: the 3-second interval is registered in a
useEffect with an empty dependency array (App.tsx lines 673-693), so every
tick invokes the FIRST render's fetchSchedule closure, whose captured
schedule and baselineSchedule are permanently empty; only the state
writes reach the live store. -/
def pollStep (live : ReconState) (newSched : List ScheduleEntry)
    (baselineFetch : Option (List ScheduleEntry)) : ReconState :=
  fetchScheduleRun ⟨[], [], []⟩ live newSched baselineFetch

/-- The explicit system reset (App.tsx resetSystem, lines 951-967): on a
successful POST /reset the three snapshot slots of the live store are
cleared and fetchSchedule is awaited — but that inner call is the SAME
render's closure, so its reads see the pre-reset state (pre) while its
writes land on the cleared store. -/
def resetStep (pre : ReconState) (newSched : List ScheduleEntry)
    (baselineFetch : Option (List ScheduleEntry)) : ReconState :=
  fetchScheduleRun pre ⟨[], [], []⟩ newSched baselineFetch

/-- When the captured closure state coincides with the live store, a
fetchSchedule run is exactly the ingest step used for C1. -/
theorem fetchScheduleRun_self (st : ReconState) (ns : List ScheduleEntry)
    (bf : Option (List ScheduleEntry)) :
    fetchScheduleRun st st ns bf = fetchScheduleStep st ns bf := rfl

/-- Claim C1: from a state with no baseline and a non-empty current
snapshot A, ingesting a new snapshot B promotes A (the existing current
snapshot, not B) to baseline and makes B current; a subsequent ingest of a
snapshot equal to the current one leaves baseline and current unchanged.
The first ingest is taken with the auxiliary GET /baseline failing
(baselineFetch = none), the scenario of the spec; the second ingest holds
for every baseline-fetch outcome since the baseline is then non-empty. -/
theorem spec_C1_ingest_promotes_baseline
    (A B prev : List ScheduleEntry) (bf : Option (List ScheduleEntry))
    (hA : A ≠ []) :
    (fetchScheduleStep ⟨A, [], prev⟩ B none).baselineSchedule = A
    ∧ (fetchScheduleStep ⟨A, [], prev⟩ B none).schedule = B
    ∧ (fetchScheduleStep (fetchScheduleStep ⟨A, [], prev⟩ B none) B bf).baselineSchedule = A
    ∧ (fetchScheduleStep (fetchScheduleStep ⟨A, [], prev⟩ B none) B bf).schedule = B := by
  simp [fetchScheduleStep, hA]

/-- Witness for C1 at concrete snapshots. -/
theorem spec_C1_ingest_promotes_baseline_witness :
    (fetchScheduleStep ⟨[⟨"T1", "S1", 1, 0, 1, none⟩], [], []⟩
        [⟨"T1", "S1", 2, 0, 1, none⟩] none).baselineSchedule
      = [⟨"T1", "S1", 1, 0, 1, none⟩]
    ∧ (fetchScheduleStep ⟨[⟨"T1", "S1", 1, 0, 1, none⟩], [], []⟩
        [⟨"T1", "S1", 2, 0, 1, none⟩] none).schedule
      = [⟨"T1", "S1", 2, 0, 1, none⟩]
    ∧ (fetchScheduleStep
        (fetchScheduleStep ⟨[⟨"T1", "S1", 1, 0, 1, none⟩], [], []⟩
          [⟨"T1", "S1", 2, 0, 1, none⟩] none)
        [⟨"T1", "S1", 2, 0, 1, none⟩] none).baselineSchedule
      = [⟨"T1", "S1", 1, 0, 1, none⟩]
    ∧ (fetchScheduleStep
        (fetchScheduleStep ⟨[⟨"T1", "S1", 1, 0, 1, none⟩], [], []⟩
          [⟨"T1", "S1", 2, 0, 1, none⟩] none)
        [⟨"T1", "S1", 2, 0, 1, none⟩] none).schedule
      = [⟨"T1", "S1", 2, 0, 1, none⟩] :=
  spec_C1_ingest_promotes_baseline _ _ _ _ (by decide)

/-- Counterexample to claim C2 as stated: a routine poll tick runs the
first render's closure, whose captured baseline is empty, so it re-issues
GET /baseline, and a successful response silently replaces the store's
non-empty baseline. -/
theorem spec_C2_poll_overwrite_cex :
    ([⟨"T1", "S1", 1, 0, 1, none⟩] : List ScheduleEntry) ≠ []
    ∧ (pollStep
        ⟨[⟨"T1", "S1", 2, 0, 1, none⟩], [⟨"T1", "S1", 1, 0, 1, none⟩], []⟩
        [⟨"T1", "S1", 3, 0, 1, none⟩]
        (some [⟨"T2", "S1", 1, 0, 1, none⟩])).baselineSchedule
      ≠ [⟨"T1", "S1", 1, 0, 1, none⟩] := by
  decide

/-- Claim C2, amended: a routine poll tick updates the current snapshot
and never replaces the baseline from its schedule data; when its
GET /baseline request fails it leaves baseline and previous untouched,
but because the interval captured the first render's empty state, a
successful GET /baseline response overwrites even a non-empty baseline.
An ingest whose captured state is the live store (initial load or a
user-triggered refresh) does preserve a non-empty baseline. A reset
performed while a baseline existed clears the baseline, and the reset's
own re-fetch does not re-establish it, since that inner run still reads
the pre-reset state. -/
theorem spec_C2_baseline_amended (live pre : ReconState)
    (ns b : List ScheduleEntry) (bf : Option (List ScheduleEntry))
    (hlive : live.baselineSchedule ≠ []) (hpre : pre.baselineSchedule ≠ []) :
    (pollStep live ns bf).schedule = ns
    ∧ (pollStep live ns none).baselineSchedule = live.baselineSchedule
    ∧ (pollStep live ns none).previousSchedule = live.previousSchedule
    ∧ (pollStep live ns (some b)).baselineSchedule = b
    ∧ (fetchScheduleStep live ns bf).baselineSchedule = live.baselineSchedule
    ∧ (resetStep pre ns bf).baselineSchedule = [] := by
  refine ⟨rfl, ?_, ?_, ?_, ?_, ?_⟩
  · simp [pollStep, fetchScheduleRun]
  · simp [pollStep, fetchScheduleRun]
  · simp [pollStep, fetchScheduleRun]
  · simp [fetchScheduleStep, hlive]
  · simp [resetStep, fetchScheduleRun, hpre]

/-- Witness for the amended C2 at a concrete live store with a non-empty
baseline and the same state captured by the resetting render. -/
theorem spec_C2_baseline_amended_witness :
    (pollStep ⟨[⟨"T1", "S1", 2, 0, 1, none⟩], [⟨"T1", "S1", 1, 0, 1, none⟩], []⟩
        [⟨"T1", "S1", 3, 0, 1, none⟩] (some [⟨"T2", "S1", 1, 0, 1, none⟩])).schedule
      = [⟨"T1", "S1", 3, 0, 1, none⟩]
    ∧ (pollStep ⟨[⟨"T1", "S1", 2, 0, 1, none⟩], [⟨"T1", "S1", 1, 0, 1, none⟩], []⟩
        [⟨"T1", "S1", 3, 0, 1, none⟩] none).baselineSchedule
      = (⟨[⟨"T1", "S1", 2, 0, 1, none⟩], [⟨"T1", "S1", 1, 0, 1, none⟩], []⟩ : ReconState).baselineSchedule
    ∧ (pollStep ⟨[⟨"T1", "S1", 2, 0, 1, none⟩], [⟨"T1", "S1", 1, 0, 1, none⟩], []⟩
        [⟨"T1", "S1", 3, 0, 1, none⟩] none).previousSchedule
      = (⟨[⟨"T1", "S1", 2, 0, 1, none⟩], [⟨"T1", "S1", 1, 0, 1, none⟩], []⟩ : ReconState).previousSchedule
    ∧ (pollStep ⟨[⟨"T1", "S1", 2, 0, 1, none⟩], [⟨"T1", "S1", 1, 0, 1, none⟩], []⟩
        [⟨"T1", "S1", 3, 0, 1, none⟩] (some [⟨"T2", "S1", 1, 0, 1, none⟩])).baselineSchedule
      = [⟨"T2", "S1", 1, 0, 1, none⟩]
    ∧ (fetchScheduleStep ⟨[⟨"T1", "S1", 2, 0, 1, none⟩], [⟨"T1", "S1", 1, 0, 1, none⟩], []⟩
        [⟨"T1", "S1", 3, 0, 1, none⟩] (some [⟨"T2", "S1", 1, 0, 1, none⟩])).baselineSchedule
      = (⟨[⟨"T1", "S1", 2, 0, 1, none⟩], [⟨"T1", "S1", 1, 0, 1, none⟩], []⟩ : ReconState).baselineSchedule
    ∧ (resetStep ⟨[⟨"T1", "S1", 2, 0, 1, none⟩], [⟨"T1", "S1", 1, 0, 1, none⟩], []⟩
        [⟨"T1", "S1", 3, 0, 1, none⟩] (some [⟨"T2", "S1", 1, 0, 1, none⟩])).baselineSchedule
      = [] :=
  spec_C2_baseline_amended
    ⟨[⟨"T1", "S1", 2, 0, 1, none⟩], [⟨"T1", "S1", 1, 0, 1, none⟩], []⟩
    ⟨[⟨"T1", "S1", 2, 0, 1, none⟩], [⟨"T1", "S1", 1, 0, 1, none⟩], []⟩
    [⟨"T1", "S1", 3, 0, 1, none⟩] [⟨"T2", "S1", 1, 0, 1, none⟩]
    (some [⟨"T2", "S1", 1, 0, 1, none⟩]) (by decide) (by decide)

/-- Whether the after-entry e counts as changed against the snapshot
before: the first before-entry with the same train id is looked up and the
platform and arrival/departure timestamps are compared
(App.tsx lines 1966-1974). -/
def entryChangedB (before : List ScheduleEntry) (e : ScheduleEntry) : Bool :=
  match before.find? (fun b => b.train_id == e.train_id) with
  | some b =>
      (b.assigned_platform != e.assigned_platform)
      || (b.actual_arrival != e.actual_arrival)
      || (b.actual_departure != e.actual_departure)
  | none => false

/-- The changed-train diff (App.tsx lines 1964-1975): the train ids of the
after-entries flagged as changed; the source accumulates them into a Set,
modelled here by the list of flagged ids (emptiness and membership agree
with the set). -/
def changedTrains (before after : List ScheduleEntry) : List String :=
  (after.filter (fun e => entryChangedB before e)).map (fun e => e.train_id)

/-- Counterexample to claim C3 as stated: in a snapshot where one train
has two stops, each after-entry is compared against the FIRST before-entry
of that train, so the second stop differs from the first and the diff of
the snapshot against itself is non-empty. -/
theorem spec_C3_diff_self_cex :
    changedTrains
      [⟨"T1", "A", 1, 0, 1, none⟩, ⟨"T1", "B", 2, 2, 3, none⟩]
      [⟨"T1", "A", 1, 0, 1, none⟩, ⟨"T1", "B", 2, 2, 3, none⟩] ≠ [] := by
  decide

/-- In a list of entries whose train ids are pairwise distinct, looking up
the first entry with the train id of a member returns that member. -/
theorem find_first_of_nodup_train_ids (l : List ScheduleEntry) (e : ScheduleEntry)
    (hnd : (l.map (fun x => x.train_id)).Nodup) (he : e ∈ l) :
    l.find? (fun b => b.train_id == e.train_id) = some e := by
  induction l with
  | nil => cases he
  | cons a tl ih =>
    rw [List.map_cons, List.nodup_cons] at hnd
    rcases List.mem_cons.1 he with rfl | htl
    · simp [List.find?]
    · have hkey : a.train_id ≠ e.train_id := by
        intro hEq
        exact hnd.1 (hEq ▸ List.mem_map_of_mem (fun x => x.train_id) htl)
      have hbeq : (a.train_id == e.train_id) = false := by
        simpa using hkey
      rw [List.find?_cons, hbeq]
      exact ih hnd.2 htl

/-- Claim C3, amended: the changed-train diff of a snapshot against itself
is empty provided each train id appears in at most one entry (with
repeated train ids the source compares later stops to the first stop and
may flag them); and a train absent from the before snapshot is never
counted as changed, for any snapshots. -/
theorem spec_C3_diff_amended (S before after : List ScheduleEntry) (tid : String)
    (hS : (S.map (fun e => e.train_id)).Nodup)
    (ht : tid ∉ before.map (fun e => e.train_id)) :
    changedTrains S S = [] ∧ tid ∉ changedTrains before after := by
  constructor
  · unfold changedTrains
    have hall : ∀ e ∈ S, ¬(entryChangedB S e = true) := by
      intro e he
      unfold entryChangedB
      rw [find_first_of_nodup_train_ids S e hS he]
      simp
    rw [List.filter_eq_nil_iff.2 hall]
    rfl
  · intro hmem
    unfold changedTrains at hmem
    rcases List.mem_map.1 hmem with ⟨e, hef, htid⟩
    have hchanged := (List.mem_filter.1 hef).2
    unfold entryChangedB at hchanged
    cases hfind : before.find? (fun b => b.train_id == e.train_id) with
    | none => rw [hfind] at hchanged; simp at hchanged
    | some b =>
      have hbmem : b ∈ before := List.mem_of_find?_eq_some hfind
      have hbid : (b.train_id == e.train_id) = true :=
        List.find?_some (p := fun x : ScheduleEntry => x.train_id == e.train_id) hfind
      have : b.train_id = tid := htid ▸ (eq_of_beq hbid)
      exact ht (this ▸ List.mem_map_of_mem (fun x => x.train_id) hbmem)

/-- Witness for the amended C3 at concrete snapshots. -/
theorem spec_C3_diff_amended_witness :
    changedTrains
      [⟨"T1", "A", 1, 0, 1, none⟩, ⟨"T2", "B", 2, 2, 3, none⟩]
      [⟨"T1", "A", 1, 0, 1, none⟩, ⟨"T2", "B", 2, 2, 3, none⟩] = []
    ∧ "T9" ∉ changedTrains
      [⟨"T1", "A", 1, 0, 1, none⟩]
      [⟨"T9", "A", 2, 5, 6, none⟩] :=
  spec_C3_diff_amended
    [⟨"T1", "A", 1, 0, 1, none⟩, ⟨"T2", "B", 2, 2, 3, none⟩]
    [⟨"T1", "A", 1, 0, 1, none⟩]
    [⟨"T9", "A", 2, 5, 6, none⟩]
    "T9" (by decide) (by decide)

/-- Result object of the delay-impact estimator
(App.tsx delayImpact shape: current, predicted, difference, in minutes). -/
structure Impact where
  current : ℚ
  predicted : ℚ
  difference : ℚ
deriving DecidableEq, Repr

/-- Outcome of the POST /simulate-override call issued by the estimator:
the fetch promise rejects (netError, server unreachable), the response is
received but not ok (httpError), the response is ok but carries no
target_train_impact block (okNoImpact), or it carries a usable impact
payload (okImpact). -/
inductive SimResult where
  | netError : SimResult
  | httpError : SimResult
  | okNoImpact : SimResult
  | okImpact : ℚ → ℚ → ℚ → SimResult
deriving DecidableEq, Repr

/-- The override impact estimator calculateDelayImpact
(App.tsx lines 1059-1117). The whole body runs inside a try/catch whose
catch returns null, and the only statement of the body that can throw is
the awaited fetch, so a netError outcome yields none. The fallback branch
counts the other entries at the same station already assigned to the
target platform, with no time-overlap condition, and adds 3 minutes per
such entry. -/
def calculateDelayImpact (trains : List Train) (schedule : List ScheduleEntry)
    (trainId : String) (newPlatform : Int) (sim : SimResult) : Option Impact :=
  match schedule.find? (fun s => s.train_id == trainId) with
  | none => none
  | some currentEntry =>
    match trains.find? (fun t => t.id == trainId) with
    | none => none
    | some train =>
      match train.scheduled_arrival with
      | none => none
      | some schedArr =>
        let currentDelay : ℚ :=
          max 0 (((currentEntry.actual_arrival - schedArr : Int) : ℚ) / 60000)
        match sim with
        | SimResult.netError => none
        | SimResult.okImpact c p d => some ⟨c, p, d⟩
        | _ =>
          let conflicting := schedule.filter (fun s =>
            s.station_id == currentEntry.station_id
            && s.assigned_platform == newPlatform
            && s.train_id != trainId)
          some ⟨currentDelay,
                currentDelay + (conflicting.length : ℚ) * 3,
                (conflicting.length : ℚ) * 3⟩

/-- The number of co-platform entries the fallback branch of
calculateDelayImpact counts: other entries at the same station whose
assigned platform is the override target, regardless of time overlap. -/
def conflictingCount (schedule : List ScheduleEntry) (stationId : String)
    (newPlatform : Int) (trainId : String) : Nat :=
  (schedule.filter (fun s =>
    s.station_id == stationId
    && s.assigned_platform == newPlatform
    && s.train_id != trainId)).length

/-- Follows the claim's wording (not the source): the number of other
entries at the same station and target platform whose occupancy windows
overlap the current entry's window. -/
def specOverlapConflictCount (schedule : List ScheduleEntry)
    (currentEntry : ScheduleEntry) (newPlatform : Int) (trainId : String) : Nat :=
  (schedule.filter (fun s =>
    s.station_id == currentEntry.station_id
    && s.assigned_platform == newPlatform
    && s.train_id != trainId
    && decide (s.actual_arrival ≤ currentEntry.actual_departure)
    && decide (currentEntry.actual_arrival ≤ s.actual_departure))).length

/-- Example data shared by the estimator counterexamples: train T1 with
scheduled arrival 0, its entry at station S1 platform 1 occupying
0..60000 ms, and one other entry at S1 on platform 2 occupying a window
disjoint from T1's. -/
def trainsEx : List Train := [⟨"T1", some 0, none⟩]

/-- The schedule snapshot for the estimator counterexamples. -/
def schedEx : List ScheduleEntry :=
  [⟨"T1", "S1", 1, 0, 60000, none⟩,
   ⟨"T2", "S1", 2, 900000000, 900060000, none⟩]

/-- The entry of train T1 inside schedEx. -/
def entryEx : ScheduleEntry := ⟨"T1", "S1", 1, 0, 60000, none⟩

/-- Counterexample to claim C4 as stated: with the train, its scheduled
arrival and its schedule entry all present, a network failure of the
simulate-override call (fetch throws) makes the estimator return null via
its catch block instead of the local fallback result. -/
theorem spec_C4_net_error_cex :
    (schedEx.find? (fun s => s.train_id == "T1")).isSome = true
    ∧ (trainsEx.find? (fun t => t.id == "T1")).isSome = true
    ∧ calculateDelayImpact trainsEx schedEx "T1" 2 SimResult.netError = none := by
  decide

/-- Claim C4, amended: the estimator is a total function (it never
throws); when the simulate-override fetch itself fails it returns null;
when the call completes but the response is not ok or carries no usable
impact payload, and the train, its scheduled arrival and its schedule
entry exist, it returns the non-null local fallback result; and whenever
the train's entry cannot be located in the current snapshot it returns
null for every network outcome. -/
theorem spec_C4_estimator_amended (trains : List Train)
    (schedule : List ScheduleEntry) (trainId : String) (newPlatform : Int)
    (e : ScheduleEntry) (t : Train) (sa : Int)
    (he : schedule.find? (fun s => s.train_id == trainId) = some e)
    (ht : trains.find? (fun tr => tr.id == trainId) = some t)
    (hsa : t.scheduled_arrival = some sa) :
    calculateDelayImpact trains schedule trainId newPlatform SimResult.netError = none
    ∧ (calculateDelayImpact trains schedule trainId newPlatform SimResult.httpError).isSome = true
    ∧ (calculateDelayImpact trains schedule trainId newPlatform SimResult.okNoImpact).isSome = true
    ∧ ∀ (sched2 : List ScheduleEntry) (sim : SimResult),
        sched2.find? (fun s => s.train_id == trainId) = none →
        calculateDelayImpact trains sched2 trainId newPlatform sim = none := by
  refine ⟨?_, ?_, ?_, ?_⟩
  · simp only [calculateDelayImpact, he, ht, hsa]
  · simp only [calculateDelayImpact, he, ht, hsa, Option.isSome_some]
  · simp only [calculateDelayImpact, he, ht, hsa, Option.isSome_some]
  · intro sched2 sim hnone
    simp only [calculateDelayImpact, hnone]

/-- Witness for the amended C4 at the concrete example data. -/
theorem spec_C4_estimator_amended_witness :
    calculateDelayImpact trainsEx schedEx "T1" 2 SimResult.netError = none
    ∧ (calculateDelayImpact trainsEx schedEx "T1" 2 SimResult.httpError).isSome = true
    ∧ (calculateDelayImpact trainsEx schedEx "T1" 2 SimResult.okNoImpact).isSome = true
    ∧ ∀ (sched2 : List ScheduleEntry) (sim : SimResult),
        sched2.find? (fun s => s.train_id == "T1") = none →
        calculateDelayImpact trainsEx sched2 "T1" 2 sim = none :=
  spec_C4_estimator_amended trainsEx schedEx "T1" 2 entryEx ⟨"T1", some 0, none⟩ 0
    (by decide) (by decide) rfl

/-- The fallback equation of the estimator: when the train, its scheduled
arrival and its entry are present and the simulate-override response is
received but not ok, the estimator returns the local heuristic result,
expressed through conflictingCount. -/
theorem calcImpact_fallback_httpError (trains : List Train)
    (schedule : List ScheduleEntry) (trainId : String) (newPlatform : Int)
    (e : ScheduleEntry) (t : Train) (sa : Int)
    (he : schedule.find? (fun s => s.train_id == trainId) = some e)
    (ht : trains.find? (fun tr => tr.id == trainId) = some t)
    (hsa : t.scheduled_arrival = some sa) :
    calculateDelayImpact trains schedule trainId newPlatform SimResult.httpError =
      some ⟨max 0 (((e.actual_arrival - sa : Int) : ℚ) / 60000),
            max 0 (((e.actual_arrival - sa : Int) : ℚ) / 60000)
              + (conflictingCount schedule e.station_id newPlatform trainId : ℚ) * 3,
            (conflictingCount schedule e.station_id newPlatform trainId : ℚ) * 3⟩ := by
  simp only [calculateDelayImpact, conflictingCount, he, ht, hsa]

/-- Counterexample to claim C5 as stated: the fallback path counts the
co-platform entry whose occupancy window is disjoint from the train's, so
the returned delay delta (3 minutes) is not 3 times the number of entries
with overlapping occupancy (zero). -/
theorem spec_C5_overlap_cex :
    (calculateDelayImpact trainsEx schedEx "T1" 2 SimResult.httpError).map Impact.difference
      ≠ some (3 * (specOverlapConflictCount schedEx entryEx 2 "T1" : ℚ)) := by
  have hmain := calcImpact_fallback_httpError trainsEx schedEx "T1" 2 entryEx
    ⟨"T1", some 0, none⟩ 0 (by decide) (by decide) rfl
  have hcount : conflictingCount schedEx entryEx.station_id 2 "T1" = 1 := by decide
  have hover : specOverlapConflictCount schedEx entryEx 2 "T1" = 0 := by decide
  rw [hmain, hcount, hover]
  simp only [Option.map_some']
  intro hcontra
  have := Option.some.inj hcontra
  norm_num at this

/-- Claim C5, amended: in the fallback path the additional delay equals
3 minutes times the number of OTHER entries at the same station assigned
to the target platform, with no time-overlap requirement; the predicted
delay is the current delay plus that additional delay, and with exactly
one such co-platform entry the delta is exactly 3 minutes. -/
theorem spec_C5_fallback_formula (trains : List Train)
    (schedule : List ScheduleEntry) (trainId : String) (newPlatform : Int)
    (e : ScheduleEntry) (t : Train) (sa : Int)
    (he : schedule.find? (fun s => s.train_id == trainId) = some e)
    (ht : trains.find? (fun tr => tr.id == trainId) = some t)
    (hsa : t.scheduled_arrival = some sa) :
    calculateDelayImpact trains schedule trainId newPlatform SimResult.httpError =
      some ⟨max 0 (((e.actual_arrival - sa : Int) : ℚ) / 60000),
            max 0 (((e.actual_arrival - sa : Int) : ℚ) / 60000)
              + (conflictingCount schedule e.station_id newPlatform trainId : ℚ) * 3,
            (conflictingCount schedule e.station_id newPlatform trainId : ℚ) * 3⟩
    ∧ (conflictingCount schedule e.station_id newPlatform trainId = 1 →
        (calculateDelayImpact trains schedule trainId newPlatform
          SimResult.httpError).map Impact.difference = some 3) := by
  have hmain := calcImpact_fallback_httpError trains schedule trainId newPlatform
    e t sa he ht hsa
  refine ⟨hmain, ?_⟩
  intro hone
  rw [hmain, hone]
  simp only [Option.map_some']
  norm_num

/-- Witness for the amended C5: at the concrete example data there is
exactly one co-platform entry and the fallback delta is exactly 3. -/
theorem spec_C5_fallback_formula_witness :
    calculateDelayImpact trainsEx schedEx "T1" 2 SimResult.httpError =
      some ⟨max 0 (((entryEx.actual_arrival - 0 : Int) : ℚ) / 60000),
            max 0 (((entryEx.actual_arrival - 0 : Int) : ℚ) / 60000)
              + (conflictingCount schedEx entryEx.station_id 2 "T1" : ℚ) * 3,
            (conflictingCount schedEx entryEx.station_id 2 "T1" : ℚ) * 3⟩
    ∧ (conflictingCount schedEx entryEx.station_id 2 "T1" = 1 →
        (calculateDelayImpact trainsEx schedEx "T1" 2
          SimResult.httpError).map Impact.difference = some 3) :=
  spec_C5_fallback_formula trainsEx schedEx "T1" 2 entryEx ⟨"T1", some 0, none⟩ 0
    (by decide) (by decide) rfl

/-- Motion status attached to a rendered train dot
(App.tsx trainDots status field). -/
inductive TrainStatus where
  | moving : TrainStatus
  | waiting : TrainStatus
  | delayed : TrainStatus
  | stopped : TrainStatus
deriving DecidableEq, Repr

/-- A positioned map node for one station (App.tsx nodes). -/
structure Node where
  id : String
  x : ℚ
  y : ℚ
deriving DecidableEq, Repr

/-- nodeFor (App.tsx line 230): first node whose id matches. -/
def nodeFor (nodes : List Node) (id : String) : Option Node :=
  nodes.find? (fun n => n.id == id)

/-- A route of the hardcoded railway network (App.tsx lines 173-177); the
from/to fields are renamed fromS/toS because from is a Lean keyword. -/
structure Route where
  fromS : String
  toS : String
  tracks : Nat
deriving DecidableEq, Repr

/-- The hardcoded route list of the map (App.tsx lines 173-177). -/
def routes : List Route :=
  [⟨"HYB", "SC", 2⟩, ⟨"SC", "KCG", 1⟩, ⟨"HYB", "KCG", 2⟩]

/-- getTrain (App.tsx line 101). -/
def getTrain (trains : List Train) (id : String) : Option Train :=
  trains.find? (fun t => t.id == id)

/-- isDelayed (App.tsx lines 102-108): false when the train or its
scheduled arrival is missing, otherwise true iff the entry's actual
arrival exceeds the scheduled arrival by more than 2 minutes. -/
def isDelayed (trains : List Train) (e : ScheduleEntry) : Bool :=
  match getTrain trains e.train_id with
  | none => false
  | some t =>
    match t.scheduled_arrival with
    | none => false
    | some s => decide (120000 < e.actual_arrival - s)

/-- The status given to a train rendered at a station in schedule-fallback
mode (App.tsx line 323): delayed when isDelayed, else waiting when more
than 5 minutes remain before the ENTRY's actual departure, else
stopped. -/
def stationStatus (trains : List Train) (e : ScheduleEntry) (nowMs : Int) : TrainStatus :=
  if isDelayed trains e then TrainStatus.delayed
  else if nowMs < e.actual_departure - 300000 then TrainStatus.waiting
  else TrainStatus.stopped

/-- The track number assigned to a moving train (App.tsx lines 351-355):
the route connecting the two stations in either direction is looked up,
and the lane is drawn from an unseeded Math.random() call, modelled by the
explicit parameter rand in [0,1). -/
def movingTrackNumber (rand : ℚ) (s1 s2 : String) : Nat :=
  match routes.find? (fun r =>
      (r.fromS == s1 && r.toS == s2) || (r.toS == s1 && r.fromS == s2)) with
  | some r => (⌊rand * (r.tracks : ℚ)⌋).toNat + 1
  | none => 1

/-- A rendered train dot; the display-only fill and title fields of the
source are omitted, trackNumber is none for dots placed at a station. -/
structure Dot where
  x : ℚ
  y : ℚ
  status : TrainStatus
  trackNumber : Option Nat
deriving DecidableEq, Repr

/-- The dot for a train interpolated between two stations
(App.tsx lines 336-365): elapsed fraction of the segment clamped to
[0,1], with the degenerate segment guarded by max 1. -/
def movingDot (rand : ℚ) (a b : Node) (s1 s2 : String)
    (segStart segEnd nowMs : Int) : Dot :=
  let r : ℚ := max 0 (min 1
    (((nowMs - segStart : Int) : ℚ) / ((max 1 (segEnd - segStart) : Int) : ℚ)))
  ⟨a.x + (b.x - a.x) * r, a.y + (b.y - a.y) * r, TrainStatus.moving,
   some (movingTrackNumber rand s1 s2)⟩

/-- The per-train placement loop of the schedule fallback
(App.tsx lines 311-367): walk the ordered itinerary; if now is at or
before the current entry's departure (or it is the final entry) and its
station has a node, sit at that station; otherwise, if now falls inside
the segment to the next entry and both stations have nodes, interpolate;
otherwise continue with the next entry. When the station node is missing
the source falls through to the segment test of the same iteration, which
is preserved here. -/
def placeTrainLoop (nodes : List Node) (trains : List Train) (rand : ℚ)
    (nowMs : Int) : List ScheduleEntry → Option Dot
  | [] => none
  | cur :: rest =>
    let stationBranch : Option Dot :=
      if nowMs ≤ cur.actual_departure ∨ rest = [] then
        (nodeFor nodes cur.station_id).map
          (fun n => ⟨n.x, n.y, stationStatus trains cur nowMs, none⟩)
      else none
    match stationBranch with
    | some d => some d
    | none =>
      match rest with
      | [] => none
      | next :: rest2 =>
        if cur.actual_departure ≤ nowMs ∧ nowMs ≤ next.actual_arrival then
          match nodeFor nodes cur.station_id, nodeFor nodes next.station_id with
          | some a, some b =>
            some (movingDot rand a b cur.station_id next.station_id
              cur.actual_departure next.actual_arrival nowMs)
          | _, _ => placeTrainLoop nodes trains rand nowMs (next :: rest2)
        else placeTrainLoop nodes trains rand nowMs (next :: rest2)

/-- Full fallback placement for one train (App.tsx lines 308-381): run the
loop; if nothing was placed, sit at the last known station. -/
def placeTrain (nodes : List Node) (trains : List Train) (rand : ℚ)
    (nowMs : Int) (entries : List ScheduleEntry) : Option Dot :=
  match placeTrainLoop nodes trains rand nowMs entries with
  | some d => some d
  | none =>
    match entries.getLast? with
    | none => none
    | some last =>
        (nodeFor nodes last.station_id).map
          (fun n => ⟨n.x, n.y, TrainStatus.stopped, none⟩)

/-- Fallback coordinates for a station with no geo data and no hardcoded
position (App.tsx lines 223-226): padding plus Math.random() times the
remaining extent, with the two unseeded Math.random() calls modelled by
the parameters randX and randY. -/
def fallbackNodePos (randX randY : ℚ) : ℚ × ℚ :=
  (40 + randX * (1000 - 2 * 40), 40 + randY * (320 - 2 * 40))

/-- Claim C6: for a train whose itinerary is exactly two entries, leaving
station A at time T and arriving at station B at T plus 10 minutes, the
interpolator at T plus 5 minutes renders the exact coordinate midpoint of
the two stations with status moving, for every randomness value. -/
theorem spec_C6_midpoint (tid aId bId : String) (ax ay bx by' : ℚ)
    (p1 p2 : Int) (r1 r2 : Option String) (arr1 T dep2 : Int) (rand : ℚ)
    (trains : List Train)
    (hne : aId ≠ bId) (hord : arr1 ≤ T) (hinv : T + 600000 ≤ dep2) :
    (placeTrain [⟨aId, ax, ay⟩, ⟨bId, bx, by'⟩] trains rand (T + 300000)
      [⟨tid, aId, p1, arr1, T, r1⟩, ⟨tid, bId, p2, T + 600000, dep2, r2⟩]).map
        (fun d => (d.x, d.y, d.status))
    = some ((ax + bx) / 2, (ay + by') / 2, TrainStatus.moving) := by
  have hA : nodeFor [⟨aId, ax, ay⟩, ⟨bId, bx, by'⟩] aId = some ⟨aId, ax, ay⟩ := by
    simp [nodeFor, List.find?]
  have hB : nodeFor [⟨aId, ax, ay⟩, ⟨bId, bx, by'⟩] bId = some ⟨bId, bx, by'⟩ := by
    have hb : (aId == bId) = false := by simpa using hne
    simp [nodeFor, List.find?, hb]
  have hcond1 : ¬(T + 300000 ≤ T ∨
      ([⟨tid, bId, p2, T + 600000, dep2, r2⟩] : List ScheduleEntry) = []) := by
    push_neg
    exact ⟨by omega, by simp⟩
  have hcond2 : T ≤ T + 300000 ∧ T + 300000 ≤ T + 600000 := by omega
  simp only [placeTrain, placeTrainLoop, hcond1, if_neg, if_false, hA, hB,
    if_pos hcond2]
  have hr : max 0 (min 1
      (((T + 300000 - T : Int) : ℚ) / ((max 1 (T + 600000 - T) : Int) : ℚ)))
      = 1 / 2 := by
    have h1 : (T + 300000 - T : Int) = 300000 := by omega
    have h2 : (T + 600000 - T : Int) = 600000 := by omega
    rw [h1, h2]
    norm_num
  simp only [movingDot, hr, Option.map_some']
  norm_num
  constructor
  · ring
  · ring

/-- Witness for C6 at concrete stations and time. -/
theorem spec_C6_midpoint_witness :
    (placeTrain [⟨"A", 2, 4⟩, ⟨"B", 6, 10⟩] trainsEx (7 / 10) (1000 + 300000)
      [⟨"T1", "A", 1, 500, 1000, none⟩, ⟨"T1", "B", 2, 1000 + 600000, 1000 + 600000, none⟩]).map
        (fun d => (d.x, d.y, d.status))
    = some (((2 : ℚ) + 6) / 2, ((4 : ℚ) + 10) / 2, TrainStatus.moving) :=
  spec_C6_midpoint "T1" "A" "B" 2 4 6 10 1 2 none none 500 1000 (1000 + 600000)
    (7 / 10) trainsEx (by decide) (by omega) (by omega)

/-- Counterexample to claim C7 as stated: train T1 has scheduled departure
at time 0 (in the past at now = 1000), so fewer than 5 minutes remain
before the train's SCHEDULED departure, yet the source classifies the dot
as waiting because it compares now against the entry's ACTUAL departure
(here far in the future). -/
theorem spec_C7_status_cex :
    stationStatus [⟨"T1", some 0, some 0⟩]
      ⟨"T1", "S", 1, 0, 1000000000, none⟩ 1000 = TrainStatus.waiting
    ∧ getTrain [⟨"T1", some 0, some 0⟩] "T1" = some ⟨"T1", some 0, some 0⟩
    ∧ ¬((1000 : Int) + 300000 < 0) := by
  refine ⟨?_, by decide, by decide⟩
  decide

/-- Claim C7, amended: in schedule-fallback mode a train rendered at a
station is delayed iff its train record and scheduled arrival exist and
the entry's actual arrival exceeds it by more than 2 minutes; otherwise
it is waiting iff more than 5 minutes remain before the ENTRY's actual
departure (the source compares against actual_departure, not the train's
scheduled departure), and stopped otherwise. -/
theorem spec_C7_status_amended (trains : List Train) (e : ScheduleEntry)
    (nowMs : Int) :
    (stationStatus trains e nowMs = TrainStatus.delayed ↔
      (∃ t, getTrain trains e.train_id = some t ∧
        ∃ sa, t.scheduled_arrival = some sa ∧ 120000 < e.actual_arrival - sa))
    ∧ (stationStatus trains e nowMs = TrainStatus.waiting ↔
      (isDelayed trains e = false ∧ nowMs < e.actual_departure - 300000))
    ∧ (stationStatus trains e nowMs = TrainStatus.stopped ↔
      (isDelayed trains e = false ∧ e.actual_departure - 300000 ≤ nowMs)) := by
  have hiff : isDelayed trains e = true ↔
      (∃ t, getTrain trains e.train_id = some t ∧
        ∃ sa, t.scheduled_arrival = some sa ∧ 120000 < e.actual_arrival - sa) := by
    unfold isDelayed
    cases hg : getTrain trains e.train_id with
    | none => simp
    | some t =>
      cases hs : t.scheduled_arrival with
      | none => simp [hs]
      | some sa => simp [hs]
  by_cases hd : isDelayed trains e = true
  · refine ⟨?_, ?_, ?_⟩
    · simp [stationStatus, hd, hiff.1 hd]
    · simp [stationStatus, hd]
    · simp [stationStatus, hd]
  · have hd' : isDelayed trains e = false := by
      simpa using hd
    by_cases hw : nowMs < e.actual_departure - 300000
    · refine ⟨?_, ?_, ?_⟩
      · rw [← hiff]
        simp [stationStatus, hd', hw]
      · simp [stationStatus, hd', hw]
      · simp [stationStatus, hd', hw]
        omega
    · refine ⟨?_, ?_, ?_⟩
      · rw [← hiff]
        simp [stationStatus, hd', hw]
      · simp [stationStatus, hd', hw]
      · simp [stationStatus, hd', hw]
        omega

/-- Concrete nodes for the C9 non-determinism theorem: the two stations of
the 2-track HYB to SC route. -/
def nodesC9 : List Node := [⟨"HYB", 0, 0⟩, ⟨"SC", 10, 10⟩]

/-- Concrete itinerary for the C9 non-determinism theorem: a train moving
from HYB to SC, halfway through its segment at now = 300000. -/
def entriesC9 : List ScheduleEntry :=
  [⟨"T1", "HYB", 1, 0, 0, none⟩, ⟨"T1", "SC", 1, 600000, 700000, none⟩]

/-- Claim C9 names a real defect of the code: with identical stations,
schedule and now, the rendered output still depends on unseeded
Math.random() draws. The same moving train gets track number 1 under a
draw of 0 and track number 2 under a draw of one half, and the fallback
placement of an unpositioned station likewise moves with the draw, so two
evaluations with identical inputs need not be bit-identical. -/
theorem spec_C9_random_nondeterminism :
    ((placeTrain nodesC9 trainsEx 0 300000 entriesC9).map (fun d => d.trackNumber)
      ≠ (placeTrain nodesC9 trainsEx (1 / 2) 300000 entriesC9).map (fun d => d.trackNumber))
    ∧ fallbackNodePos 0 0 ≠ fallbackNodePos (1 / 2) 0 := by
  have hfind : routes.find? (fun r =>
      (r.fromS == "HYB" && r.toS == "SC") || (r.toS == "HYB" && r.fromS == "SC"))
      = some ⟨"HYB", "SC", 2⟩ := by
    decide
  have ht0 : movingTrackNumber 0 "HYB" "SC" = 1 := by
    simp [movingTrackNumber, hfind]
  have ht1 : movingTrackNumber (1 / 2) "HYB" "SC" = 2 := by
    simp only [movingTrackNumber, hfind]
    norm_num
  have hplace : ∀ rand : ℚ, placeTrain nodesC9 trainsEx rand 300000 entriesC9
      = some (movingDot rand ⟨"HYB", 0, 0⟩ ⟨"SC", 10, 10⟩ "HYB" "SC" 0 600000 300000) := by
    intro rand
    have hH : nodeFor nodesC9 "HYB" = some ⟨"HYB", 0, 0⟩ := by decide
    have hS : nodeFor nodesC9 "SC" = some ⟨"SC", 10, 10⟩ := by decide
    have hcond1 : ¬((300000 : Int) ≤ 0 ∨
        ([⟨"T1", "SC", 1, 600000, 700000, none⟩] : List ScheduleEntry) = []) := by
      push_neg
      exact ⟨by omega, by simp⟩
    have hcond2 : (0 : Int) ≤ 300000 ∧ (300000 : Int) ≤ 600000 := by omega
    simp only [placeTrain, placeTrainLoop, entriesC9, nodesC9, hcond1, if_neg,
      if_false, if_pos hcond2]
    rw [show nodeFor [⟨"HYB", 0, 0⟩, ⟨"SC", 10, 10⟩] "HYB" = some ⟨"HYB", 0, 0⟩ from hH,
        show nodeFor [⟨"HYB", 0, 0⟩, ⟨"SC", 10, 10⟩] "SC" = some ⟨"SC", 10, 10⟩ from hS]
  constructor
  · rw [hplace 0, hplace (1 / 2)]
    simp only [movingDot, Option.map_some', ht0, ht1]
    intro hcontra
    have := Option.some.inj hcontra
    simp at this
  · intro hcontra
    have := congrArg Prod.fst hcontra
    simp only [fallbackNodePos] at this
    norm_num at this

/-- A shared time window for the Gantt panels, in epoch milliseconds
(App.tsx timeWindow prop). -/
structure TimeWindow where
  min : Int
  max : Int
deriving DecidableEq, Repr

/-- The effective span of a Gantt window (App.tsx line 1400): the raw span
substituted by max with 1, so a zero-span window never divides by zero. -/
def ganttSpan (tw : TimeWindow) : ℚ :=
  max 1 ((tw.max - tw.min : Int) : ℚ)

/-- Gantt bar placement for one entry (App.tsx lines 1447-1450): left
percentage clamped at 0 and width percentage floored at the 0.5 percent
minimum visible width. -/
def placeBar (e : ScheduleEntry) (tw : TimeWindow) : ℚ × ℚ :=
  (max 0 ((((e.actual_arrival - tw.min : Int) : ℚ) / ganttSpan tw) * 100),
   max (1 / 2) ((((e.actual_departure - e.actual_arrival : Int) : ℚ) / ganttSpan tw) * 100))

/-- Claim C8: Gantt bar placement is total for every entry and window,
including zero-span windows: the effective span is max 1 of the raw span,
hence positive (no division by zero), the left percentage is never
negative and the width percentage never falls below one half percent. -/
theorem spec_C8_placeBar_safe (e : ScheduleEntry) (tw : TimeWindow) :
    ganttSpan tw = max 1 ((tw.max - tw.min : Int) : ℚ)
    ∧ 0 < ganttSpan tw
    ∧ 0 ≤ (placeBar e tw).1
    ∧ 1 / 2 ≤ (placeBar e tw).2 := by
  refine ⟨rfl, ?_, le_max_left _ _, le_max_left _ _⟩
  have : (1 : ℚ) ≤ ganttSpan tw := le_max_left _ _
  linarith

/-- The KPI record (App.tsx computeKPIs result); avgDelay is kept as the
exact quotient, the toFixed display rounding of the source being
presentation only. -/
structure KPIs where
  total : Nat
  ontimePct : Int
  avgDelay : ℚ
deriving DecidableEq, Repr

/-- JavaScript Math.round for the non-negative values produced here:
floor of the value plus one half. -/
def jsRound (q : ℚ) : Int := ⌊q + 1 / 2⌋

/-- The delay in minutes of one entry as computeKPIs measures it
(App.tsx lines 977-986): none when the train or its scheduled arrival is
missing (the entry is skipped), otherwise the non-negative difference of
actual and scheduled arrival in minutes. -/
def entryDelay (trains : List Train) (e : ScheduleEntry) : Option ℚ :=
  match getTrain trains e.train_id with
  | none => none
  | some t =>
    match t.scheduled_arrival with
    | none => none
    | some s => some (max 0 (((e.actual_arrival - s : Int) : ℚ) / 60000))

/-- The forEach accumulation of computeKPIs: the pair of the on-time count
(delay at most 2 minutes) and the summed delay, skipped entries
contributing to neither. -/
def kpiAcc (trains : List Train) : List ScheduleEntry → Nat × ℚ
  | [] => (0, 0)
  | e :: rest =>
    let acc := kpiAcc trains rest
    match entryDelay trains e with
    | none => acc
    | some d => ((if d ≤ 2 then 1 else 0) + acc.1, d + acc.2)

/-- The on-time entry count of a snapshot, stated separately from the
accumulating pair for the C10 theorem. -/
def ontimeCount (trains : List Train) : List ScheduleEntry → Nat
  | [] => 0
  | e :: rest =>
    (match entryDelay trains e with
     | none => 0
     | some d => if d ≤ 2 then 1 else 0) + ontimeCount trains rest

/-- The summed delay of a snapshot in minutes, stated separately from the
accumulating pair for the C10 theorem. -/
def sumDelay (trains : List Train) : List ScheduleEntry → ℚ
  | [] => 0
  | e :: rest => (entryDelay trains e).getD 0 + sumDelay trains rest

/-- computeKPIs (App.tsx lines 970-993): an empty snapshot short-circuits
to all-zero KPIs (guarding the divisions), otherwise the on-time
percentage and average delay are taken over the FULL entry count. -/
def computeKPIs (trains : List Train) (schedule : List ScheduleEntry) : KPIs :=
  if schedule = [] then ⟨0, 0, 0⟩
  else
    let acc := kpiAcc trains schedule
    ⟨schedule.length,
     jsRound (((acc.1 : ℚ) / (schedule.length : ℚ)) * 100),
     acc.2 / (schedule.length : ℚ)⟩

/-- The accumulating pair agrees with the separately stated count and
sum. -/
theorem kpiAcc_eq (trains : List Train) (l : List ScheduleEntry) :
    kpiAcc trains l = (ontimeCount trains l, sumDelay trains l) := by
  induction l with
  | nil => rfl
  | cons e rest ih =>
    simp only [kpiAcc, ontimeCount, sumDelay, ih]
    cases entryDelay trains e with
    | none => simp
    | some d => simp

/-- Claim C10: on the empty snapshot computeKPIs returns exactly the
all-zero record (the division is guarded, nothing undefined is produced);
on a non-empty snapshot the total is the full entry count and both the
on-time percentage and the average delay use that full count as
denominator, entries lacking a train or scheduled arrival still being
counted in it. -/
theorem spec_C10_kpis (trains : List Train) (schedule : List ScheduleEntry)
    (h : schedule ≠ []) :
    computeKPIs trains [] = ⟨0, 0, 0⟩
    ∧ (computeKPIs trains schedule).total = schedule.length
    ∧ (computeKPIs trains schedule).ontimePct
      = jsRound (((ontimeCount trains schedule : ℚ) / (schedule.length : ℚ)) * 100)
    ∧ (computeKPIs trains schedule).avgDelay
      = sumDelay trains schedule / (schedule.length : ℚ) := by
  refine ⟨rfl, ?_, ?_, ?_⟩ <;>
    simp [computeKPIs, h, kpiAcc_eq]

/-- Witness for C10 at a concrete snapshot: one on-time entry with a
1-minute delay and one entry with no schedule data. -/
theorem spec_C10_kpis_witness :
    computeKPIs trainsEx [] = ⟨0, 0, 0⟩
    ∧ (computeKPIs trainsEx schedEx).total = schedEx.length
    ∧ (computeKPIs trainsEx schedEx).ontimePct
      = jsRound (((ontimeCount trainsEx schedEx : ℚ) / (schedEx.length : ℚ)) * 100)
    ∧ (computeKPIs trainsEx schedEx).avgDelay
      = sumDelay trainsEx schedEx / (schedEx.length : ℚ) :=
  spec_C10_kpis trainsEx schedEx (by decide)
